import Mathlib

/-!
Shallow embedding of the siprems demand-forecasting pipeline
(`ml_engine.py`, `tasks/ml_tasks.py`, `services/prediction_service.py`).

Numbers are modelled as rationals.  The transcendental numpy functions
(`log1p`, `expm1`), the pandas standard deviation, and the opaque Prophet
collaborator's in-sample predict are parameters of the embedding
(`NumKernel`): every theorem quantifies over them, and witnesses
instantiate them with concrete computable functions.
-/

namespace Siprems

/-- One row of the daily sales aggregate produced by
`MLEngine.get_sales_data` / `get_sales_data_for_task`:
`ds` (day ordinal), `y` (summed quantity, cast to int), `promo` (0/1 flag). -/
structure SalesRow where
  ds : Int
  y : Int
  promo : Int
deriving DecidableEq, Repr

/-- `MLEngine.get_sales_data`: the query result, or an empty frame when the
database read raises (the `except` clause logs and returns `pd.DataFrame()`). -/
def get_sales_data (readResult : Except String (List SalesRow)) : List SalesRow :=
  match readResult with
  | .ok rows => rows
  | .error _ => []

/-- The opaque numeric collaborators of the pipeline: numpy's `log1p`/`expm1`,
pandas' sample standard deviation, and the fitted Prophet model's in-sample
predictions (log-space `yhat` per input row `(ds, y_log, promo)`). -/
structure NumKernel where
  log1p : ℚ → ℚ
  expm1 : ℚ → ℚ
  std : List ℚ → ℚ
  fitPredict : List (Int × ℚ × Int) → List ℚ

/-- Arithmetic mean, `xs.mean()`; 0 on the empty list. -/
def qMean (xs : List ℚ) : ℚ := xs.sum / xs.length

/-- Insert into an ascending-sorted list. -/
def insertSorted (x : ℚ) : List ℚ → List ℚ
  | [] => [x]
  | y :: ys => if x ≤ y then x :: y :: ys else y :: insertSorted x ys

/-- Ascending sort (insertion sort). -/
def sortAsc (xs : List ℚ) : List ℚ := xs.foldr insertSorted []

/-- `np.median`: middle element of the sorted list for odd length, mean of the
two middle elements for even length. -/
def npMedian (xs : List ℚ) : ℚ :=
  let s := sortAsc xs
  let n := xs.length
  if n = 0 then 0
  else if n % 2 = 1 then s.getD (n / 2) 0
  else (s.getD (n / 2 - 1) 0 + s.getD (n / 2) 0) / 2

/-- Python's built-in binary `max` on numbers. -/
def qmax (a b : ℚ) : ℚ := if a ≤ b then b else a

/-- Python's built-in binary `min` on numbers. -/
def qmin (a b : ℚ) : ℚ := if a ≤ b then a else b

/-- `max(0.85, min(1.15, x))` from step 5 of training. -/
def clampFactor (x : ℚ) : ℚ := qmax (85/100) (qmin (115/100) x)

/-- The `1e-6` guard added to the denominator of the correction ratios. -/
def epsRatio : ℚ := 1/1000000

/-- `np.finfo(np.float64).eps = 2^-52`, the denominator guard used by
sklearn's `mean_absolute_percentage_error`. -/
def epsMach : ℚ := 1/2^52

/-- The `y_log` column: `np.log1p(df['y'])`. -/
def yLogOf (K : NumKernel) (df : List SalesRow) : List ℚ :=
  df.map (fun r => K.log1p (r.y : ℚ))

/-- Outlier removal (step 2 of training): drop rows with
`|y_log - mu| > 3.5 * std` when `std > 0`, otherwise keep all rows. -/
def preprocess (K : NumKernel) (df : List SalesRow) : List SalesRow :=
  let ylog := yLogOf K df
  let mu := qMean ylog
  let sd := K.std ylog
  if sd > 0 then
    ((df.zip ylog).filter (fun p => |p.2 - mu| ≤ (35/10) * sd)).map Prod.fst
  else df

/-- `y_true = np.expm1(df_fit['y'].values)` over the kept rows. -/
def yTrue (K : NumKernel) (kept : List SalesRow) : List ℚ :=
  kept.map (fun r => K.expm1 (K.log1p (r.y : ℚ)))

/-- `y_pred = np.expm1(forecast['yhat'].values)`, the collaborator's in-sample
predictions inverse-transformed. -/
def yPred (K : NumKernel) (kept : List SalesRow) : List ℚ :=
  (K.fitPredict (kept.map (fun r => (r.ds, K.log1p (r.y : ℚ), r.promo)))).map K.expm1

/-- `ratios = y_true / (y_pred + 1e-6)` (elementwise). -/
def trainRatios (K : NumKernel) (kept : List SalesRow) : List ℚ :=
  (yTrue K kept).zipWith (fun t p => t / (p + epsRatio)) (yPred K kept)

/-- `mean_absolute_error(y_true, y_pred)`. -/
def trainMae (K : NumKernel) (kept : List SalesRow) : ℚ :=
  qMean ((yTrue K kept).zipWith (fun t p => |t - p|) (yPred K kept))

/-- `mean_absolute_percentage_error(y_true, y_pred)`:
mean of `|y_true - y_pred| / max(eps, |y_true|)`. -/
def trainMape (K : NumKernel) (kept : List SalesRow) : ℚ :=
  qMean ((yTrue K kept).zipWith (fun t p => |t - p| / max epsMach |t|) (yPred K kept))

/-- Result dict of `MLEngine.train_product_model` /
`train_product_model_task`: `skipped{reason}`, `success{factor, accuracy}`,
or `error{reason}` (the engine's catch-all). -/
inductive TrainResult where
  | skipped (reason : String)
  | success (factor accuracy : ℚ)
  | error (reason : String)
deriving DecidableEq, Repr

/-- `res['status'] == 'success'`. -/
def TrainResult.isSuccess : TrainResult → Bool
  | .success _ _ => true
  | _ => false

/-- `res.get('reason')` (empty for a success dict). -/
def TrainResult.reasonOf : TrainResult → String
  | .skipped r => r
  | .error r => r
  | .success _ _ => ""

/-- `MLEngine.train_product_model` (= the non-raising part of
`train_product_model_task`): the two insufficient-data guards, outlier
removal, correction factor `clamp(median(ratios), 0.85, 1.15)` and
`accuracy = max(0, 100 * (1 - min(mape, 1.0)))`. -/
def train_product_model (K : NumKernel) (df : List SalesRow) : TrainResult :=
  if df.length = 0 ∨ df.length < 5 then .skipped "Not enough data"
  else if (preprocess K df).length < 5 then
    .skipped "Not enough data after outlier removal"
  else
    .success (clampFactor (npMedian (trainRatios K (preprocess K df))))
      (qmax 0 (100 * (1 - qmin (trainMape K (preprocess K df)) 1)))

/-- The metadata dict written to `meta_<sku>.json` (step 8 of training). -/
structure ModelMeta where
  correction_factor : ℚ
  mae : ℚ
  mape_percent : ℚ
  accuracy_score : ℚ
deriving DecidableEq, Repr

/-- The metadata persisted by training: written exactly when training
succeeds, with the values computed in steps 5-6. -/
def storedMeta (K : NumKernel) (df : List SalesRow) : Option ModelMeta :=
  match train_product_model K df with
  | .success _ _ =>
    some { correction_factor := clampFactor (npMedian (trainRatios K (preprocess K df)))
           mae := trainMae K (preprocess K df)
           mape_percent := 100 * trainMape K (preprocess K df)
           accuracy_score := qmax 0 (100 * (1 - qmin (trainMape K (preprocess K df)) 1)) }
  | _ => none

/-- One row of the collaborator's out-of-sample `model.predict(future)` output
(log-space point estimate and interval bounds). -/
structure RawRow where
  ds : Int
  yhat : ℚ
  yhat_lower : ℚ
  yhat_upper : ℚ
deriving DecidableEq, Repr

/-- One corrected forecast row: `expm1`-inverse-transformed, multiplied by the
correction factor, and clipped at 0 (`.clip(lower=0)`). -/
structure ForecastRow where
  ds : Int
  yhat_corrected : ℚ
  yhat_lower_corrected : ℚ
  yhat_upper_corrected : ℚ
  accuracy_score : ℚ
deriving DecidableEq, Repr

/-- The correction / inverse-transform / clip block shared by
`MLEngine.predict` and `predict_stock_task`:
`clip(expm1(yhat) * correction_factor, lower=0)` for point and bounds.
A missing or unreadable metadata file (`metaOpt = none`) degrades to
`correction_factor = 1.0`, `accuracy_score = 0.0`. -/
def applyCorrection (K : NumKernel) (metaOpt : Option ModelMeta)
    (raw : List RawRow) : List ForecastRow :=
  let cf : ℚ := match metaOpt with | some m => m.correction_factor | none => 1
  let acc : ℚ := match metaOpt with | some m => m.accuracy_score | none => 0
  raw.map (fun r =>
    { ds := r.ds
      yhat_corrected := qmax 0 (K.expm1 r.yhat * cf)
      yhat_lower_corrected := qmax 0 (K.expm1 r.yhat_lower * cf)
      yhat_upper_corrected := qmax 0 (K.expm1 r.yhat_upper * cf)
      accuracy_score := acc })

/-- The exception message raised by `MLEngine.predict` when on-demand training
does not succeed. -/
def insufficientDataMsg (sku : String) : String :=
  "Insufficient data to train model for product " ++ sku ++
    ". Need at least 5 days of sales history."

/-- `MLEngine.predict`: when no model artifact exists for the SKU, train
synchronously and raise if that does not return success; otherwise load the
model and metadata (defaulting when missing/unreadable), run the collaborator
(its raw output is the `raw` parameter) and correct/clip the result. -/
def MLEngine.predict (K : NumKernel) (sku : String) (modelExists : Bool)
    (df : List SalesRow) (metaOpt : Option ModelMeta) (raw : List RawRow) :
    Except String (List ForecastRow) :=
  if modelExists = false ∧ (train_product_model K df).isSuccess = false then
    .error (insufficientDataMsg sku)
  else
    .ok (applyCorrection K metaOpt raw)

/-! ## PredictionService.predict_stock: recommendation block -/

/-- `ProductModel.get_product_by_sku` payload fields used by the
recommendation block. -/
structure ProductInfo where
  name : String
  stock : Int
deriving DecidableEq, Repr

/-- One entry of the `recommendations` list. -/
structure Recommendation where
  product : String
  current : Int
  optimal : Int
  trend : String
  suggestion : String
  urgency : String
deriving DecidableEq, Repr

/-- Python's built-in `round` (round half to even), as applied by
`int(round(total_predicted_sales * buffer_percent))`. -/
def pyRound (q : ℚ) : ℤ :=
  let f := ⌊q⌋
  if q - f < 1/2 then f
  else if q - f > 1/2 then f + 1
  else if f % 2 = 0 then f else f + 1

/-- `forecast.tail(forecast_days)['yhat_corrected'].sum()`: the sum of the
last `forecast_days` corrected predictions. -/
def recTotal (chart : List ℚ) (days : Nat) : ℚ :=
  (chart.drop (chart.length - days)).sum

/-- `buffer_percent = 1.2 if forecast_days <= 7 else 1.1`. -/
def recBuffer (days : Nat) : ℚ := if days ≤ 7 then 12/10 else 11/10

/-- `optimal_stock = int(round(total_predicted_sales * buffer_percent))`. -/
def recOptimal (chart : List ℚ) (days : Nat) : ℤ :=
  pyRound (recTotal chart days * recBuffer days)

/-- `gap = optimal_stock - current_stock`. -/
def recGap (chart : List ℚ) (days : Nat) (stock : ℤ) : ℤ :=
  recOptimal chart days - stock

/-- The recommendation block of `PredictionService.predict_stock`
(lines 80-107): `chart` is the `yhat_corrected` column of the forecast. -/
def recommendation (chart : List ℚ) (days : Nat) (p : ProductInfo) :
    Recommendation :=
  let optimal := recOptimal chart days
  let gap := optimal - p.stock
  if gap > 0 then
    { product := p.name, current := p.stock, optimal := optimal, trend := "up"
      suggestion := "Restock +" ++ toString gap ++ " unit"
      urgency := if gap > p.stock then "high" else "medium" }
  else
    { product := p.name, current := p.stock, optimal := optimal, trend := "down"
      suggestion := "Stok Aman", urgency := "low" }

/-! ## ModelStore persistence (steps 7-8 of training) -/

/-- A file-system operation performed while persisting artifacts.
`openTrunc` is `open(path, "w")` (truncates the file at `path`),
`write` appends data to the open file, `rename` is `os.rename`
(never performed by the source, present so atomic write-to-temp-then-rename
is expressible). -/
inductive FsOp where
  | openTrunc (path : String)
  | write (path : String) (data : String)
  | close (path : String)
  | rename (src dst : String)
deriving DecidableEq, Repr

/-- `MODELS_DIR` (utils/config.py default). -/
def MODELS_DIR : String := "/app/models"

/-- `MODELS_META_DIR = os.path.join(MODELS_DIR, 'meta')`. -/
def META_DIR : String := "/app/models/meta"

/-- `os.path.join(MODELS_DIR, f"model_<sku>.json")`. -/
def modelPath (sku : String) : String := MODELS_DIR ++ "/model_" ++ sku ++ ".json"

/-- `os.path.join(META_DIR, f"meta_<sku>.json")`. -/
def metaPath (sku : String) : String := META_DIR ++ "/meta_" ++ sku ++ ".json"

/-- The sequence of file operations performed by steps 7-8 of
`train_product_model` / `train_product_model_task`: open the final model path
for writing, write the serialized model, close; then the same for the
metadata path. -/
def saveArtifactsTrace (sku modelJson metaJson : String) : List FsOp :=
  [ .openTrunc (modelPath sku), .write (modelPath sku) modelJson,
    .close (modelPath sku),
    .openTrunc (metaPath sku), .write (metaPath sku) metaJson,
    .close (metaPath sku) ]

/-- Effect of one file operation on the file-system state
(path to optional content). -/
def fsApply (st : String → Option String) : FsOp → String → Option String
  | .openTrunc p => fun q => if q = p then some "" else st q
  | .write p d => fun q => if q = p then some ((st p).getD "" ++ d) else st q
  | .close _ => st
  | .rename src dst => fun q =>
      if q = dst then st src else if q = src then none else st q

/-- Run a list of file operations from an initial state. -/
def fsRun (st : String → Option String) (ops : List FsOp) :
    String → Option String :=
  ops.foldl fsApply st

/-- `true` when the operation is a rename whose destination is `p`. -/
def FsOp.isRenameTo (op : FsOp) (p : String) : Bool :=
  match op with
  | .rename _ dst => dst = p
  | _ => false

/-- `true` when the operation opens or writes `p` directly. -/
def FsOp.touchesDirectly (op : FsOp) (p : String) : Bool :=
  match op with
  | .openTrunc q => q = p
  | .write q _ => q = p
  | _ => false

/-- Modelled from the spec: a trace persists the artifact at `finalPath`
atomically by the write-to-temp-then-rename discipline exactly when some
rename targets `finalPath` and no operation opens or writes `finalPath`
directly. -/
def atomicTempRename (tr : List FsOp) (finalPath : String) : Prop :=
  (∃ op ∈ tr, op.isRenameTo finalPath = true) ∧
  ∀ op ∈ tr, op.touchesDirectly finalPath = false

instance (tr : List FsOp) (p : String) : Decidable (atomicTempRename tr p) := by
  unfold atomicTempRename
  infer_instance

/-! ## TaskOrchestrator: celery retry semantics (`max_retries=3`,
`countdown = min(2 ** self.request.retries, 600)`). -/

/-- Execution of a celery task with retries.  `body k` is the k-th execution
attempt (`self.request.retries = k`): `.ok` is a normal return, `.error` is a
raised exception reaching the `except` clause, which calls
`self.retry(countdown = min(2 ** k, 600))` while `remaining` retries are
left and otherwise surfaces the failure.  Returns the final outcome together
with the list of retry countdowns, in order. -/
def runCeleryFrom {α : Type} (body : Nat → Except String α) :
    Nat → Nat → Except String α × List Nat
  | k, 0 =>
    match body k with
    | .ok a => (.ok a, [])
    | .error e => (.error e, [])
  | k, r + 1 =>
    match body k with
    | .ok a => (.ok a, [])
    | .error _ =>
      ((runCeleryFrom body (k + 1) r).1,
        min (2 ^ k) 600 :: (runCeleryFrom body (k + 1) r).2)

/-- A task run with the configured policy `max_retries=3`, starting at
retry count 0. -/
def runCeleryTask {α : Type} (body : Nat → Except String α) :
    Except String α × List Nat :=
  runCeleryFrom body 0 3

/-- One execution attempt of `train_product_model_task`: the two
insufficient-data guards return a skipped dict without raising; past the
guards, the opaque numeric fit may raise on attempt `k` (`fitExc k = some e`),
which reaches the retry handler; otherwise the attempt returns the training
result. -/
def trainTaskBody (K : NumKernel) (df : List SalesRow)
    (fitExc : Nat → Option String) (k : Nat) : Except String TrainResult :=
  if df.length = 0 ∨ df.length < 5 then .ok (.skipped "Not enough data")
  else if (preprocess K df).length < 5 then
    .ok (.skipped "Not enough data after outlier removal")
  else
    match fitExc k with
    | some e => .error e
    | none => .ok (train_product_model K df)

/-- One execution attempt of `predict_stock_task`: when no model artifact
exists it invokes the training body inline; a non-success training result
raises `Exception(f"Failed to train model: {reason}")` inside the task's
`try`, which the `except` clause turns into a retry.  On success the
corrected forecast rows are returned. -/
def predictTaskBody (K : NumKernel) (df : List SalesRow) (modelExists : Bool)
    (metaOpt : Option ModelMeta) (raw : List RawRow)
    (fitExc : Nat → Option String) (k : Nat) :
    Except String (List ForecastRow) :=
  if modelExists = false then
    match trainTaskBody K df fitExc k with
    | .error e => .error e
    | .ok r =>
      if r.isSuccess then .ok (applyCorrection K metaOpt raw)
      else .error ("Failed to train model: " ++ r.reasonOf)
  else .ok (applyCorrection K metaOpt raw)

/-! ## Batch retraining (`PredictionService.train_all_models` /
`tasks.ml_tasks.train_all_models`). -/

/-- Python dict assignment `d[k] = v` on a dict represented as an ordered
association list: overwrite in place when the key exists, append otherwise. -/
def dictInsert {β : Type} (d : List (String × β)) (k : String) (v : β) :
    List (String × β) :=
  if d.any (fun p => p.1 == k) then
    d.map (fun p => if p.1 == k then (k, v) else p)
  else d ++ [(k, v)]

/-- Per-SKU outcome of one iteration of the batch loop: either the value
returned by `train_product_model` (`.ok`) or a raised exception (`.error`),
which the loop's `except` clause records as an error dict. -/
def settleTrain : Except String TrainResult → TrainResult
  | .ok r => r
  | .error e => .error e

/-- `train_all_models`: iterate over all products, training each SKU inside a
`try`/`except` that records a failure in that SKU's entry and continues.
`products` pairs each SKU with the outcome its training call would have
(normal return or raised exception). -/
def train_all_models (products : List (String × Except String TrainResult)) :
    List (String × TrainResult) :=
  products.foldl (fun acc p => dictInsert acc p.1 (settleTrain p.2)) []

/-! ## Concrete instantiations used by witnesses -/

/-- A concrete computable kernel: identity transforms, zero standard
deviation, and a collaborator whose in-sample prediction echoes the `y`
column. -/
def idKernel : NumKernel :=
  { log1p := id, expm1 := id, std := fun _ => 0,
    fitPredict := fun rows => rows.map (fun r => r.2.1) }

/-- Five days of one unit each. -/
def df5 : List SalesRow :=
  [⟨0, 1, 0⟩, ⟨1, 1, 0⟩, ⟨2, 1, 0⟩, ⟨3, 1, 0⟩, ⟨4, 1, 0⟩]

/-- Two days of history: below the five-observation minimum. -/
def df2 : List SalesRow := [⟨0, 1, 0⟩, ⟨1, 2, 0⟩]

/-! ## Helper lemmas -/

theorem le_qmax_left (a b : ℚ) : a ≤ qmax a b := by
  unfold qmax; split
  · assumption
  · exact le_refl a

theorem qmax_le {a b c : ℚ} (h1 : a ≤ c) (h2 : b ≤ c) : qmax a b ≤ c := by
  unfold qmax; split <;> assumption

theorem qmin_le_left (a b : ℚ) : qmin a b ≤ a := by
  unfold qmin; split
  · exact le_refl a
  · linarith

theorem le_qmin {a b c : ℚ} (h1 : c ≤ a) (h2 : c ≤ b) : c ≤ qmin a b := by
  unfold qmin; split <;> assumption

/-- The sum of a zipWith of a pointwise-nonnegative function is
nonnegative. -/
theorem sum_zipWith_nonneg (f : ℚ → ℚ → ℚ) (hf : ∀ a b, 0 ≤ f a b) :
    ∀ (xs ys : List ℚ), 0 ≤ (List.zipWith f xs ys).sum := by
  intro xs
  induction xs with
  | nil => intro ys; simp
  | cons a as ih =>
    intro ys
    cases ys with
    | nil => simp
    | cons b bs =>
      simp only [List.zipWith, List.sum_cons]
      exact add_nonneg (hf a b) (ih bs)

/-- sklearn's MAPE is nonnegative: every summand is a quotient of an absolute
value by a positive maximum. -/
theorem trainMape_nonneg (K : NumKernel) (kept : List SalesRow) :
    0 ≤ trainMape K kept := by
  unfold trainMape qMean
  apply div_nonneg
  · apply sum_zipWith_nonneg
    intro a b
    apply div_nonneg (abs_nonneg _)
    have : (0:ℚ) ≤ epsMach := by unfold epsMach; positivity
    exact le_trans this (le_max_left _ _)
  · exact_mod_cast Nat.cast_nonneg _

/-- Unfolding equation of `runCeleryFrom` with no retries remaining. -/
theorem runCeleryFrom_zero {α : Type} (body : Nat → Except String α) (k : Nat) :
    runCeleryFrom body k 0 =
      (match body k with
       | .ok a => (.ok a, [])
       | .error e => (.error e, [])) := rfl

/-- Unfolding equation of `runCeleryFrom` with retries remaining. -/
theorem runCeleryFrom_succ {α : Type} (body : Nat → Except String α)
    (k r : Nat) :
    runCeleryFrom body k (r + 1) =
      (match body k with
       | .ok a => (.ok a, [])
       | .error _ =>
         ((runCeleryFrom body (k + 1) r).1,
           min (2 ^ k) 600 :: (runCeleryFrom body (k + 1) r).2)) := rfl

/-- An attempt that returns normally ends the task without retrying. -/
theorem runCeleryFrom_ok {α : Type} (body : Nat → Except String α) (k r : Nat)
    (a : α) (hb : body k = .ok a) : runCeleryFrom body k r = (.ok a, []) := by
  cases r with
  | zero => rw [runCeleryFrom_zero, hb]
  | succ n => rw [runCeleryFrom_succ, hb]

/-- An attempt that raises with retries remaining schedules a countdown of
`min(2^k, 600)` and continues at attempt `k+1`. -/
theorem runCeleryFrom_error {α : Type} (body : Nat → Except String α)
    (k r : Nat) (e : String) (hb : body k = .error e) :
    runCeleryFrom body k (r + 1) =
      ((runCeleryFrom body (k + 1) r).1,
        min (2 ^ k) 600 :: (runCeleryFrom body (k + 1) r).2) := by
  rw [runCeleryFrom_succ, hb]

/-- A body that raises on every attempt exhausts all retries, one countdown
per retry. -/
theorem runCeleryFrom_const_error {α : Type} (body : Nat → Except String α)
    (e : String) (hb : ∀ k, body k = .error e) :
    ∀ (r k : Nat), runCeleryFrom body k r =
      (.error e, (List.range' k r).map (fun i => min (2 ^ i) 600)) := by
  intro r
  induction r with
  | zero =>
    intro k
    rw [runCeleryFrom_zero, hb k]
    simp [List.range']
  | succ n ih =>
    intro k
    rw [runCeleryFrom_error body k n e (hb k), ih (k + 1)]
    simp [List.range']

/-- At most `r` retries happen when `r` retries remain. -/
theorem runCeleryFrom_length_le {α : Type} (body : Nat → Except String α) :
    ∀ (r k : Nat), (runCeleryFrom body k r).2.length ≤ r := by
  intro r
  induction r with
  | zero =>
    intro k
    rcases hb : body k with e | a
    · rw [runCeleryFrom_zero, hb]
      simp
    · rw [runCeleryFrom_zero, hb]
      simp
  | succ n ih =>
    intro k
    rcases hb : body k with e | a
    · rw [runCeleryFrom_error body k n e hb]
      simpa using ih (k + 1)
    · rw [runCeleryFrom_ok body k (n + 1) a hb]
      simp

/-- The countdowns of any run are exactly `min(2^attempt, 600)` for the
consecutive attempt numbers. -/
theorem runCeleryFrom_countdowns {α : Type} (body : Nat → Except String α) :
    ∀ (r k : Nat), (runCeleryFrom body k r).2 =
      (List.range' k (runCeleryFrom body k r).2.length).map
        (fun i => min (2 ^ i) 600) := by
  intro r
  induction r with
  | zero =>
    intro k
    rcases hb : body k with e | a
    · rw [runCeleryFrom_zero, hb]
      simp [List.range']
    · rw [runCeleryFrom_zero, hb]
      simp [List.range']
  | succ n ih =>
    intro k
    rcases hb : body k with e | a
    · rw [runCeleryFrom_error body k n e hb]
      simp only [List.length_cons, List.range', List.map_cons]
      congr 1
      exact ih (k + 1)
    · rw [runCeleryFrom_ok body k (n + 1) a hb]
      simp [List.range']

/-- Inserting a key that is not present appends the pair. -/
theorem dictInsert_not_mem {β : Type} (d : List (String × β)) (k : String)
    (v : β) (h : k ∉ d.map Prod.fst) : dictInsert d k v = d ++ [(k, v)] := by
  unfold dictInsert
  rw [if_neg ?hne]
  case hne =>
    intro hany
    rw [List.any_eq_true] at hany
    obtain ⟨p, hp, hpk⟩ := hany
    exact h (List.mem_map.mpr ⟨p, hp, beq_iff_eq.mp hpk⟩)

/-- The batch loop over distinct SKUs, started from an accumulator disjoint
from the remaining SKUs, appends one settled entry per product in order. -/
theorem train_all_models_eq
    (products : List (String × Except String TrainResult)) :
    ∀ (acc : List (String × TrainResult)),
      (products.map Prod.fst).Nodup →
      (∀ k ∈ products.map Prod.fst, k ∉ acc.map Prod.fst) →
      products.foldl (fun a p => dictInsert a p.1 (settleTrain p.2)) acc =
        acc ++ products.map (fun p => (p.1, settleTrain p.2)) := by
  induction products with
  | nil =>
    intro acc _ _
    simp
  | cons q qs ih =>
    intro acc hnd hdisj
    simp only [List.foldl_cons]
    have hq : q.1 ∉ acc.map Prod.fst := hdisj q.1 (by simp)
    rw [dictInsert_not_mem acc q.1 (settleTrain q.2) hq]
    have hnd' : (qs.map Prod.fst).Nodup := by
      simp only [List.map_cons, List.nodup_cons] at hnd
      exact hnd.2
    have hq_not_tail : q.1 ∉ qs.map Prod.fst := by
      simp only [List.map_cons, List.nodup_cons] at hnd
      exact hnd.1
    have hdisj' : ∀ k ∈ qs.map Prod.fst,
        k ∉ (acc ++ [(q.1, settleTrain q.2)]).map Prod.fst := by
      intro k hk
      simp only [List.map_append, List.mem_append, List.map_cons,
        List.map_nil, List.mem_singleton]
      rintro (hka | hkq)
      · exact hdisj k (by simp [hk]) hka
      · exact hq_not_tail (hkq ▸ hk)
    rw [ih (acc ++ [(q.1, settleTrain q.2)]) hnd' hdisj']
    simp

/-! ## Claims -/

/-- C2: every forecast point returned by a prediction call has
`predicted`, `lower` and `upper` values that are ≥ 0, whatever the
collaborator's raw log-space output or the correction factor. -/
theorem C2_forecast_nonneg (K : NumKernel) (sku : String) (modelExists : Bool)
    (df : List SalesRow) (metaOpt : Option ModelMeta) (raw : List RawRow)
    (rows : List ForecastRow)
    (h : MLEngine.predict K sku modelExists df metaOpt raw = .ok rows) :
    ∀ r ∈ rows, 0 ≤ r.yhat_corrected ∧ 0 ≤ r.yhat_lower_corrected ∧
      0 ≤ r.yhat_upper_corrected := by
  have hrows : rows = applyCorrection K metaOpt raw := by
    unfold MLEngine.predict at h
    split at h
    · exact absurd h (by simp)
    · exact (Except.ok.inj h).symm
  subst hrows
  intro r hr
  unfold applyCorrection at hr
  simp only [List.mem_map] at hr
  obtain ⟨a, _, rfl⟩ := hr
  exact ⟨le_qmax_left _ _, le_qmax_left _ _, le_qmax_left _ _⟩

/-- Witness for C2 at a collaborator output that is negative in log space:
all three clipped values come out `0 ≥ 0`. -/
theorem C2_forecast_nonneg_witness :
    0 ≤ (ForecastRow.mk 0 0 0 0 0).yhat_corrected ∧
    0 ≤ (ForecastRow.mk 0 0 0 0 0).yhat_lower_corrected ∧
    0 ≤ (ForecastRow.mk 0 0 0 0 0).yhat_upper_corrected :=
  C2_forecast_nonneg idKernel "S" true [] none [⟨0, -5, -7, -3⟩]
    [⟨0, 0, 0, 0, 0⟩]
    (by norm_num [MLEngine.predict, train_product_model, applyCorrection,
      idKernel, qmax])
    ⟨0, 0, 0, 0, 0⟩ (List.mem_singleton.mpr rfl)

/-- C3: when training succeeds, the returned and stored correction factor
equals the median of the per-point ratios clamped into [0.85, 1.15], and
hence lies in that interval. -/
theorem C3_correction_factor (K : NumKernel) (df : List SalesRow) (cf acc : ℚ)
    (h : train_product_model K df = .success cf acc) :
    cf = clampFactor (npMedian (trainRatios K (preprocess K df))) ∧
    storedMeta K df = some ⟨cf, trainMae K (preprocess K df),
      100 * trainMape K (preprocess K df), acc⟩ ∧
    85/100 ≤ cf ∧ cf ≤ 115/100 := by
  have hcf : cf = clampFactor (npMedian (trainRatios K (preprocess K df))) ∧
      acc = qmax 0 (100 * (1 - qmin (trainMape K (preprocess K df)) 1)) := by
    unfold train_product_model at h
    split at h
    · exact absurd h (by simp)
    · split at h
      · exact absurd h (by simp)
      · obtain ⟨h1, h2⟩ := TrainResult.success.inj h
        exact ⟨h1.symm, h2.symm⟩
  refine ⟨hcf.1, ?_, ?_, ?_⟩
  · unfold storedMeta
    rw [h, hcf.1, hcf.2]
  · rw [hcf.1]; exact le_qmax_left _ _
  · rw [hcf.1]
    exact qmax_le (by norm_num) (qmin_le_left _ _)

/-- Witness for C3 on a concrete five-day series: training succeeds with
factor 1000000/1000001, which is the clamped median and lies in the
interval. -/
theorem C3_correction_factor_witness :
    (1000000/1000001 : ℚ) =
      clampFactor (npMedian (trainRatios idKernel (preprocess idKernel df5))) ∧
    storedMeta idKernel df5 = some ⟨1000000/1000001,
      trainMae idKernel (preprocess idKernel df5),
      100 * trainMape idKernel (preprocess idKernel df5), 100⟩ ∧
    85/100 ≤ (1000000/1000001 : ℚ) ∧ (1000000/1000001 : ℚ) ≤ 115/100 :=
  C3_correction_factor idKernel df5 (1000000/1000001) 100
    (by norm_num [train_product_model, preprocess, yLogOf, qMean, idKernel,
      df5, trainRatios, yTrue, yPred, trainMape, npMedian, sortAsc,
      insertSorted, clampFactor, qmax, qmin, epsRatio, epsMach])

/-- C9: when training succeeds, the accuracy score equals
`max(0, 100 * (1 - min(mape, 1.0)))` and lies in [0, 100]. -/
theorem C9_accuracy_bounds (K : NumKernel) (df : List SalesRow) (cf acc : ℚ)
    (h : train_product_model K df = .success cf acc) :
    acc = qmax 0 (100 * (1 - qmin (trainMape K (preprocess K df)) 1)) ∧
    0 ≤ acc ∧ acc ≤ 100 := by
  have hacc : acc = qmax 0 (100 * (1 - qmin (trainMape K (preprocess K df)) 1)) := by
    unfold train_product_model at h
    split at h
    · exact absurd h (by simp)
    · split at h
      · exact absurd h (by simp)
      · exact (TrainResult.success.inj h).2.symm
  refine ⟨hacc, ?_, ?_⟩
  · rw [hacc]; exact le_qmax_left _ _
  · rw [hacc]
    apply qmax_le (by norm_num)
    have hm : (0:ℚ) ≤ qmin (trainMape K (preprocess K df)) 1 :=
      le_qmin (trainMape_nonneg K (preprocess K df)) zero_le_one
    nlinarith

/-- Witness for C9 on a concrete five-day series: the accuracy comes out
exactly 100, within bounds. -/
theorem C9_accuracy_bounds_witness :
    (100:ℚ) = qmax 0 (100 * (1 - qmin (trainMape idKernel (preprocess idKernel df5)) 1)) ∧
    (0:ℚ) ≤ 100 ∧ (100:ℚ) ≤ 100 :=
  C9_accuracy_bounds idKernel df5 (1000000/1000001) 100
    (by norm_num [train_product_model, preprocess, yLogOf, qMean, idKernel,
      df5, trainRatios, yTrue, yPred, trainMape, npMedian, sortAsc,
      insertSorted, clampFactor, qmax, qmin, epsRatio, epsMach])

/-- C4: fewer than 5 observations before or after outlier removal make
training return a skipped status (never a silent success), and a prediction
request with no stored model for such a SKU fails with the
insufficient-data error. -/
theorem C4_insufficient_data (K : NumKernel) (sku : String) (df : List SalesRow)
    (h : df.length < 5 ∨ (preprocess K df).length < 5) :
    (train_product_model K df = .skipped "Not enough data" ∨
     train_product_model K df = .skipped "Not enough data after outlier removal") ∧
    (train_product_model K df).isSuccess = false ∧
    ∀ (metaOpt : Option ModelMeta) (raw : List RawRow),
      MLEngine.predict K sku false df metaOpt raw =
        .error (insufficientDataMsg sku) := by
  have htrain : train_product_model K df = .skipped "Not enough data" ∨
      train_product_model K df = .skipped "Not enough data after outlier removal" := by
    unfold train_product_model
    by_cases h0 : df.length = 0 ∨ df.length < 5
    · left; rw [if_pos h0]
    · right
      have hk : (preprocess K df).length < 5 := by
        rcases h with h | h
        · exact absurd (Or.inr h) h0
        · exact h
      rw [if_neg h0, if_pos hk]
  have hsucc : (train_product_model K df).isSuccess = false := by
    rcases htrain with h1 | h1 <;> rw [h1] <;> rfl
  refine ⟨htrain, hsucc, ?_⟩
  intro metaOpt raw
  unfold MLEngine.predict
  rw [if_pos ⟨rfl, hsucc⟩]

/-- Witness for C4 on a two-day history: training skips and prediction
errors out. -/
theorem C4_insufficient_data_witness :
    (train_product_model idKernel df2 = .skipped "Not enough data" ∨
     train_product_model idKernel df2 =
       .skipped "Not enough data after outlier removal") ∧
    MLEngine.predict idKernel "S" false df2 none [] =
      .error (insufficientDataMsg "S") :=
  ⟨(C4_insufficient_data idKernel "S" df2 (Or.inl (by simp [df2]))).1,
   (C4_insufficient_data idKernel "S" df2 (Or.inl (by simp [df2]))).2.2 none []⟩

/-- C1 counterexample: the persistence trace of training writes the final
model path directly and contains no rename, so it is not a
write-to-temp-then-rename sequence; moreover, after its first operation a
reader sees a truncated (empty) artifact where the full run leaves the
serialized model. -/
theorem C1_persist_counterexample :
    ¬ atomicTempRename (saveArtifactsTrace "SKU-001" "MODEL" "META")
        (modelPath "SKU-001") ∧
    fsRun (fun _ => none) ((saveArtifactsTrace "SKU-001" "MODEL" "META").take 1)
        (modelPath "SKU-001") = some "" ∧
    fsRun (fun _ => none) (saveArtifactsTrace "SKU-001" "MODEL" "META")
        (modelPath "SKU-001") = some "MODEL" := by
  refine ⟨?_, ?_, ?_⟩ <;> decide

/-- C1 amended: training persists model and metadata by opening the final
paths directly and writing into them; the trace contains no rename at all,
and a concurrent reader can observe a truncated artifact after the
truncating open. -/
theorem C1_persist_direct_overwrite (sku m x : String)
    (st0 : String → Option String)
    (hne : modelPath sku ≠ metaPath sku) :
    (∀ op ∈ saveArtifactsTrace sku m x,
       op.isRenameTo (modelPath sku) = false ∧
       op.isRenameTo (metaPath sku) = false) ∧
    FsOp.openTrunc (modelPath sku) ∈ saveArtifactsTrace sku m x ∧
    (FsOp.openTrunc (modelPath sku)).touchesDirectly (modelPath sku) = true ∧
    fsRun st0 ((saveArtifactsTrace sku m x).take 1) (modelPath sku) = some "" ∧
    fsRun st0 (saveArtifactsTrace sku m x) (modelPath sku) = some m := by
  refine ⟨?_, ?_, ?_, ?_, ?_⟩
  · intro op hop
    simp only [saveArtifactsTrace, List.mem_cons, List.mem_singleton] at hop
    rcases hop with rfl | rfl | rfl | rfl | rfl | rfl | hop
    · exact ⟨rfl, rfl⟩
    · exact ⟨rfl, rfl⟩
    · exact ⟨rfl, rfl⟩
    · exact ⟨rfl, rfl⟩
    · exact ⟨rfl, rfl⟩
    · exact ⟨rfl, rfl⟩
    · exact absurd hop (List.not_mem_nil _)
  · simp [saveArtifactsTrace]
  · simp [FsOp.touchesDirectly]
  · simp [saveArtifactsTrace, fsRun, fsApply]
  · simp [saveArtifactsTrace, fsRun, fsApply, hne, Ne.symm hne]

/-- Witness for C1 amended at a concrete SKU and artifact contents. -/
theorem C1_persist_direct_overwrite_witness :
    fsRun (fun _ => none)
        ((saveArtifactsTrace "SKU-002" "MJSON" "XJSON").take 1)
        (modelPath "SKU-002") = some "" ∧
    fsRun (fun _ => none) (saveArtifactsTrace "SKU-002" "MJSON" "XJSON")
        (modelPath "SKU-002") = some "MJSON" :=
  ⟨(C1_persist_direct_overwrite "SKU-002" "MJSON" "XJSON" (fun _ => none)
      (by decide)).2.2.2.1,
   (C1_persist_direct_overwrite "SKU-002" "MJSON" "XJSON" (fun _ => none)
      (by decide)).2.2.2.2⟩

/-- C5 counterexample: a prediction task for a SKU with insufficient history
(and no stored model) IS retried — three times, with backoffs 1, 2, 4 —
although the failure is an insufficient-data outcome, because the raised
"Failed to train model" exception is caught by the generic retry handler. -/
theorem C5_retry_counterexample :
    (runCeleryTask (predictTaskBody idKernel df2 false none []
        (fun _ => none))).2 = [1, 2, 4] ∧
    (runCeleryTask (predictTaskBody idKernel df2 false none []
        (fun _ => none))).2 ≠ [] := by
  refine ⟨?_, ?_⟩ <;> decide

/-- C5 amended: tasks retry at most 3 times with backoff `min(2^attempt,
600)`; the training task returns a skipped result for insufficient data
without retrying, but the prediction task turns an insufficient-data
training outcome into a raised exception and retries it like a transient
failure, exhausting all 3 retries. -/
theorem C5_retry_policy (K : NumKernel) (df : List SalesRow)
    (metaOpt : Option ModelMeta) (raw : List RawRow)
    (fitExc : Nat → Option String) (h : df.length < 5) :
    runCeleryTask (trainTaskBody K df fitExc) =
      (.ok (.skipped "Not enough data"), []) ∧
    runCeleryTask (predictTaskBody K df false metaOpt raw fitExc) =
      (.error "Failed to train model: Not enough data", [1, 2, 4]) ∧
    (∀ (body : Nat → Except String (List ForecastRow)),
       (runCeleryTask body).2.length ≤ 3 ∧
       (runCeleryTask body).2 =
         (List.range' 0 ((runCeleryTask body).2.length)).map
           (fun i => min (2 ^ i) 600)) := by
  have htb : ∀ k, trainTaskBody K df fitExc k =
      .ok (.skipped "Not enough data") := by
    intro k
    unfold trainTaskBody
    rw [if_pos (Or.inr h)]
  have hpb : ∀ k, predictTaskBody K df false metaOpt raw fitExc k =
      .error "Failed to train model: Not enough data" := by
    intro k
    unfold predictTaskBody
    simp [htb k, TrainResult.isSuccess, TrainResult.reasonOf]
  refine ⟨?_, ?_, ?_⟩
  · exact runCeleryFrom_ok _ 0 3 _ (htb 0)
  · have hc := runCeleryFrom_const_error _ _ hpb 3 0
    unfold runCeleryTask
    rw [hc]
    norm_num [List.range']
  · intro body
    exact ⟨runCeleryFrom_length_le body 3 0, runCeleryFrom_countdowns body 3 0⟩

/-- Witness for C5 amended on a two-day history: the training task returns
skipped without retrying; the prediction task exhausts its three retries. -/
theorem C5_retry_policy_witness :
    runCeleryTask (trainTaskBody idKernel df2 (fun _ => none)) =
      (.ok (.skipped "Not enough data"), []) ∧
    runCeleryTask (predictTaskBody idKernel df2 false none []
        (fun _ => none)) =
      (.error "Failed to train model: Not enough data", [1, 2, 4]) :=
  ⟨(C5_retry_policy idKernel df2 none [] (fun _ => none) (by simp [df2])).1,
   (C5_retry_policy idKernel df2 none [] (fun _ => none) (by simp [df2])).2.1⟩

/-- C6 counterexample: with one forecast point of 150 over a 7-day horizon
and stock 100, the gap is 80 > 100 × 0.75, so the claim's rule says
urgency high, but the code (`gap > current_stock`) yields medium. -/
theorem C6_urgency_counterexample :
    recGap [(150:ℚ)] 7 100 = 80 ∧
    (80:ℚ) > 100 * (75/100) ∧
    (recommendation [(150:ℚ)] 7 ⟨"P", 100⟩).suggestion = "Restock +80 unit" ∧
    (recommendation [(150:ℚ)] 7 ⟨"P", 100⟩).urgency = "medium" ∧
    (recommendation [(150:ℚ)] 7 ⟨"P", 100⟩).urgency ≠ "high" := by
  refine ⟨?_, ?_, ?_, ?_, ?_⟩
  · norm_num [recGap, recOptimal, recTotal, recBuffer, pyRound]
  · norm_num
  · norm_num [recommendation, recOptimal, recTotal, recBuffer, pyRound]
    rfl
  · norm_num [recommendation, recOptimal, recTotal, recBuffer, pyRound]
  · norm_num [recommendation, recOptimal, recTotal, recBuffer, pyRound]
    decide

/-- C6 amended: when the gap is positive the suggestion is to restock by
gap units, and urgency is high exactly when `gap > currentStock` (with no
0.75 factor), medium otherwise. -/
theorem C6_restock_urgency (chart : List ℚ) (days : Nat) (p : ProductInfo)
    (h : 0 < recGap chart days p.stock) :
    (recommendation chart days p).suggestion =
      "Restock +" ++ toString (recGap chart days p.stock) ++ " unit" ∧
    (recommendation chart days p).urgency =
      (if recGap chart days p.stock > p.stock then "high" else "medium") := by
  unfold recGap at h
  simp only [recommendation]
  rw [if_pos h]
  exact ⟨rfl, rfl⟩

/-- Witness for C6 amended at the counterexample input. -/
theorem C6_restock_urgency_witness :
    (recommendation [(150:ℚ)] 7 ⟨"P", 100⟩).suggestion =
      "Restock +" ++ toString (recGap [(150:ℚ)] 7 100) ++ " unit" ∧
    (recommendation [(150:ℚ)] 7 ⟨"P", 100⟩).urgency =
      (if recGap [(150:ℚ)] 7 100 > 100 then "high" else "medium") :=
  C6_restock_urgency [(150:ℚ)] 7 ⟨"P", 100⟩
    (by norm_num [recGap, recOptimal, recTotal, recBuffer, pyRound])

/-- C7 counterexample: with forecast points 10 then 5 over a 2-day horizon
and stock 0, the last point is below the first, so the claim says trend
down, but the code (trend from the stock gap) yields up. -/
theorem C7_trend_counterexample :
    ([(10:ℚ), 5].head?) = some 10 ∧
    ([(10:ℚ), 5].getLast?) = some 5 ∧
    ¬ ((5:ℚ) > 10) ∧
    (recommendation [(10:ℚ), 5] 2 ⟨"P", 0⟩).trend = "up" ∧
    (recommendation [(10:ℚ), 5] 2 ⟨"P", 0⟩).trend ≠ "down" := by
  refine ⟨rfl, rfl, ?_, ?_, ?_⟩
  · norm_num
  · norm_num [recommendation, recOptimal, recTotal, recBuffer, pyRound]
  · norm_num [recommendation, recOptimal, recTotal, recBuffer, pyRound]
    decide

/-- C7 amended: the trend field is up exactly when the stock gap is
positive, down otherwise; it does not consult the forecast points. -/
theorem C7_trend_gap (chart : List ℚ) (days : Nat) (p : ProductInfo) :
    (recommendation chart days p).trend =
      (if 0 < recGap chart days p.stock then "up" else "down") := by
  unfold recGap
  simp only [recommendation]
  by_cases h : 0 < recOptimal chart days - p.stock
  · rw [if_pos h, if_pos h]
  · rw [if_neg h, if_neg h]

/-- C8: a batch retrain over distinct SKUs yields exactly one entry per SKU
attempted, in order, with each SKU's own outcome settled into its entry
(exceptions recorded as error entries) and no SKU's failure affecting the
rest. -/
theorem C8_batch_isolation
    (products : List (String × Except String TrainResult))
    (h : (products.map Prod.fst).Nodup) :
    train_all_models products =
      products.map (fun p => (p.1, settleTrain p.2)) ∧
    (train_all_models products).length = products.length ∧
    ∀ p ∈ products, (p.1, settleTrain p.2) ∈ train_all_models products := by
  have he : train_all_models products =
      products.map (fun p => (p.1, settleTrain p.2)) := by
    unfold train_all_models
    have hfold := train_all_models_eq products [] h (by simp)
    simpa using hfold
  refine ⟨he, ?_, ?_⟩
  · rw [he, List.length_map]
  · intro p hp
    rw [he]
    exact List.mem_map.mpr ⟨p, hp, rfl⟩

/-- A concrete batch of three SKUs: one success, one skipped
(insufficient data), one raised exception. -/
def prods3 : List (String × Except String TrainResult) :=
  [("A", .ok (.success 1 90)), ("B", .ok (.skipped "Not enough data")),
   ("C", .error "boom")]

/-- Witness for C8: the three-SKU batch produces three entries, the failing
SKU recorded as an error entry, the others untouched. -/
theorem C8_batch_isolation_witness :
    train_all_models prods3 =
      [("A", .success 1 90), ("B", .skipped "Not enough data"),
       ("C", .error "boom")] ∧
    (train_all_models prods3).length = 3 := by
  have h := C8_batch_isolation prods3 (by decide)
  exact ⟨h.1, h.2.1⟩

/-- C10: a failed sales-history read yields an empty series, so training
reports skipped with reason "Not enough data", indistinguishable from a SKU
with no transactions. -/
theorem C10_db_error_skipped (e : String) (K : NumKernel) :
    get_sales_data (.error e) = [] ∧
    train_product_model K (get_sales_data (.error e)) =
      .skipped "Not enough data" ∧
    train_product_model K (get_sales_data (.error e)) =
      train_product_model K (get_sales_data (.ok [])) :=
  ⟨rfl, rfl, rfl⟩

end Siprems
